import Mathlib

/-!
Verification of the Playback Session & Picture-in-Picture subsystem of the
IPTV-Streamer repository against its natural-language specification.

The JavaScript source is shallowly embedded: JS runtime values are modelled
by the inductive `JVal` (numbers as integers, objects as association
lists), stateful handlers become explicit state-passing functions, and the
browser/engine environment is passed in as explicit data.  Each definition
is a direct translation of the corresponding source function.
-/

namespace IPTV

/-- Model of a JavaScript runtime value.  Numbers are modelled as integers
(JS numbers are floats; every numeric value this subsystem compares or
stores — timestamps in milliseconds, HTTP status codes, durations in the
claims' scope — is integral), objects are association lists of fields in
insertion order, and function values are opaque (identified by a tag). -/
inductive JVal where
  | jsUndefined : JVal
  | null : JVal
  | bool (b : Bool) : JVal
  | num (q : Int) : JVal
  | str (s : String) : JVal
  | arr (elems : List JVal) : JVal
  | obj (fields : List (String × JVal)) : JVal
  | func (tag : Nat) : JVal
deriving Repr

/-- Decidable equality for `JVal` (the automatic derivation does not handle
the nested lists, so it is written by structural recursion). -/
def JVal.beq : JVal → JVal → Bool
  | .jsUndefined, .jsUndefined => true
  | .null, .null => true
  | .bool a, .bool b => a == b
  | .num a, .num b => a == b
  | .str a, .str b => a == b
  | .func a, .func b => a == b
  | .arr xs, .arr ys => beqList xs ys
  | .obj xs, .obj ys => beqFields xs ys
  | _, _ => false
where
  beqList : List JVal → List JVal → Bool
    | [], [] => true
    | x :: xs, y :: ys => beq x y && beqList xs ys
    | _, _ => false
  beqFields : List (String × JVal) → List (String × JVal) → Bool
    | [], [] => true
    | (k, v) :: xs, (l, w) :: ys => k == l && beq v w && beqFields xs ys
    | _, _ => false

instance : BEq JVal := ⟨JVal.beq⟩

/-- The JS `typeof` operator, as a string. -/
def JVal.typeofStr : JVal → String
  | .jsUndefined => "undefined"
  | .null => "object"
  | .bool _ => "boolean"
  | .num _ => "number"
  | .str _ => "string"
  | .arr _ => "object"
  | .obj _ => "object"
  | .func _ => "function"

/-- JS truthiness (`NaN` is not modelled; all numbers are exact). -/
def JVal.truthy : JVal → Bool
  | .jsUndefined => false
  | .null => false
  | .bool b => b
  | .num q => q != 0
  | .str s => s != ""
  | .arr _ => true
  | .obj _ => true
  | .func _ => true

/-- Property access `v.k`.  On objects it is association-list lookup; on
every other value it yields `undefined` (the uses in the embedded code are
guarded so that access on `null`/`undefined` never happens). -/
def JVal.getField : JVal → String → JVal
  | .obj fields, k => ((fields.find? (fun kv => kv.1 == k)).map Prod.snd).getD .jsUndefined
  | _, _ => .jsUndefined

/-- The JS `a || b` idiom restricted to value results. -/
def JVal.orElse (a b : JVal) : JVal := if a.truthy then a else b

/-- `instanceof Array`. -/
def JVal.isArray : JVal → Bool
  | .arr _ => true
  | _ => false

/-- String length of a string value (0 otherwise; uses are type-guarded). -/
def JVal.strLen : JVal → Nat
  | .str s => s.length
  | _ => 0

/-- Numeric value of a number value (0 otherwise; uses are type-guarded). -/
def JVal.toNum : JVal → Int
  | .num q => q
  | _ => 0

/-- A JSON-primitive value: serializes to a JSON scalar, not to an object
or an array (function values do not serialize at all). -/
def JVal.isPrimitive : JVal → Bool
  | .jsUndefined => true
  | .null => true
  | .bool _ => true
  | .num _ => true
  | .str _ => true
  | _ => false

/-! ### src/utils/pipStateManager.js -/

/-- `PIP_EXPIRY_TIME = 30 * 60 * 1000` (milliseconds). -/
def PIP_EXPIRY_TIME : Int := 30 * 60 * 1000

mutual
/-- The effect of a `JSON.stringify`/`JSON.parse` round trip on a value:
inside objects, fields holding `undefined` or a function are dropped;
inside arrays they become `null`. -/
def jsonNormalize : JVal → JVal
  | .jsUndefined => .jsUndefined
  | .null => .null
  | .bool b => .bool b
  | .num q => .num q
  | .str s => .str s
  | .func t => .func t
  | .arr xs => .arr (jsonNormalizeElems xs)
  | .obj fs => .obj (jsonNormalizeFields fs)

/-- Array elements: non-serializable entries become `null`. -/
def jsonNormalizeElems : List JVal → List JVal
  | [] => []
  | x :: xs =>
    (match x with
     | .jsUndefined => .null
     | .func _ => .null
     | v => jsonNormalize v) :: jsonNormalizeElems xs

/-- Object fields: non-serializable entries are dropped. -/
def jsonNormalizeFields : List (String × JVal) → List (String × JVal)
  | [] => []
  | (k, v) :: fs =>
    match v with
    | .jsUndefined => jsonNormalizeFields fs
    | .func _ => jsonNormalizeFields fs
    | v => (k, jsonNormalize v) :: jsonNormalizeFields fs
end

/-- `savePipState`, lines 30-37: the cleaned channel projection. -/
def cleanedChannel (channel : JVal) : JVal :=
  .obj [
    ("id", (channel.getField "id").orElse .null),
    ("name", (channel.getField "name").orElse (.str "Unknown Channel")),
    ("logo", (channel.getField "logo").orElse .null),
    ("group", (channel.getField "group").orElse .null),
    ("channelId", (channel.getField "channelId").orElse
      ((channel.getField "id").orElse .null))]

/-- `savePipState`, lines 42-48: an option value is deleted when it is a
function, or an object that is neither `null` nor an array. -/
def dropOptionValue (v : JVal) : Bool :=
  v.typeofStr == "function" ||
    (v.typeofStr == "object" && !(v == JVal.null) && !v.isArray)

/-- The sanitized options object: every entry whose value is a function or
a non-null, non-array object is removed; everything else is kept. -/
def sanitizeOptions (options : List (String × JVal)) : List (String × JVal) :=
  options.filter (fun kv => !dropOptionValue kv.2)

/-- The state object built by `savePipState` (lines 50-56), after the
`JSON.stringify` round trip it undergoes on its way to storage. -/
def pipStateRecord (channel streamUrl : JVal) (options : List (String × JVal))
    (now : Int) : JVal :=
  jsonNormalize (.obj [
    ("channel", cleanedChannel channel),
    ("streamUrl", streamUrl),
    ("options", .obj (sanitizeOptions options)),
    ("timestamp", .num now),
    ("version", .str "1.0")])

/-- `savePipState(channel, streamUrl, options)`.  The storage cell is
passed explicitly (`none` = no record); `writeFails` models a thrown
`JSON.stringify`/`setItem` failure, in which case the `catch` block
removes the stored record.  Returns the JS return value and the new
storage contents. -/
def savePipState (channel streamUrl : JVal) (options : List (String × JVal))
    (now : Int) (storage : Option JVal) (writeFails : Bool) :
    Bool × Option JVal :=
  if !channel.truthy || !streamUrl.truthy then
    (false, storage)
  else if writeFails then
    (false, none)
  else
    (true, some (pipStateRecord channel streamUrl options now))

/-- `isValidPipState` (lines 80-90). -/
def isValidPipState (state : JVal) : Bool :=
  if !state.truthy then false
  else
    let hasChannel := (state.getField "channel").truthy &&
      (state.getField "channel").typeofStr == "object"
    let hasName := hasChannel &&
      ((state.getField "channel").getField "name").typeofStr == "string"
    let hasStreamUrl := (state.getField "streamUrl").typeofStr == "string" &&
      (state.getField "streamUrl").strLen > 5
    let hasTimestamp := (state.getField "timestamp").typeofStr == "number"
    hasChannel && hasName && hasStreamUrl && hasTimestamp

/-- `loadPipState()` (lines 96-132).  The storage cell holds the parsed
stored value (`none` = no record).  Returns the JS return value and the
new storage contents (`clearPipState` empties the cell). -/
def loadPipState (storage : Option JVal) (now : Int) : Option JVal × Option JVal :=
  match storage with
  | none => (none, none)
  | some state =>
    if !isValidPipState state then
      (none, none)
    else if now - (state.getField "timestamp").toNum > PIP_EXPIRY_TIME then
      (none, none)
    else
      (some state, some state)

/-! ### Player component (src/unnamed/part_003): stream reference resolution -/

/-- A channel reference as the Player receives it: the decoded string, plus
the pathname the browser's `new URL` parser yields for it (`none` when the
string is not a parsable URL). -/
structure ChannelRef where
  raw : String
  parsedPath : Option String
deriving Repr, DecidableEq

/-- `String.prototype.toLowerCase`, written over the character list so it
evaluates by kernel reduction. -/
def lowerStr (s : String) : String := ⟨s.data.map Char.toLower⟩

/-- `String.prototype.endsWith`, written over the character lists so it
evaluates by kernel reduction. -/
def endsWithStr (s t : String) : Bool := t.data.reverse.isPrefixOf s.data.reverse

/-- `isDirectStreamUrl` (lines 38-57): a parsable URL whose lowercased
pathname ends in `.m3u8`, `.m3u` or `.ts`.  (The `urlCache` memoization is
semantically the identity and is not modelled.) -/
def isDirectStreamUrl (r : ChannelRef) : Bool :=
  if r.raw == "" then false
  else
    match r.parsedPath with
    | some p =>
      let path := lowerStr p
      endsWithStr path ".m3u8" || endsWithStr path ".m3u" || endsWithStr path ".ts"
    | none => false

/-- `extractChannelId` (lines 61-80): returns the input unchanged in both
the URL and the non-URL branch; `null` only for a falsy input. -/
def extractChannelId (r : ChannelRef) : Option String :=
  if r.raw == "" then none else some r.raw

/-- A channel object returned by the Channel Directory Service
(`apiClient`). -/
structure ApiChannel where
  name : Option String
  url : Option String
  logo : Option String
  group : Option String
  category : Option String
  id : Option String
deriving Repr, DecidableEq

/-- The Channel Directory Service, modelled by its two lookups as total
functions (`none` = no hit; the exceptional path is not needed by the
claims about resolution order). -/
structure Directory where
  getChannelDetails : String → Option ApiChannel
  findChannel : String → Option ApiChannel

/-- Truthiness of an optional string field (`channelData?.url`). -/
def strFieldTruthy : Option String → Bool
  | some s => s != ""
  | none => false

/-- One Channel Directory Service call, for the resolution call log. -/
inductive DirCall where
  | details (q : String)
  | find (q : String)
deriving Repr, DecidableEq

/-- Outcome of the resolving phase of `resolveAndLoadStream`. -/
inductive ResolveOutcome where
  /-- The reference is used as the stream URL directly; no API data. -/
  | direct (streamUrl : String)
  /-- A stream URL was obtained from the directory, with its channel data. -/
  | resolved (streamUrl : String) (data : ApiChannel)
  /-- `setError('Channel found but no stream URL available')`. -/
  | noUrl
deriving Repr, DecidableEq

/-- The resolving phase of `resolveAndLoadStream` (lines 401-457): decide
the final stream URL and channel data for a decoded reference, returning
also the list of directory calls made, in order.  The source queries
`getChannelDetails` first and `findChannel` only when that returned no
channel; a channel without a truthy `url` aborts with an error. -/
def resolveAndLoadStream (dir : Directory) (ref : ChannelRef) :
    ResolveOutcome × List DirCall :=
  if isDirectStreamUrl ref then (.direct ref.raw, [])
  else
    match extractChannelId ref with
    | none => (.direct ref.raw, [])
    | some channelId =>
      match dir.getChannelDetails channelId with
      | some c =>
        if strFieldTruthy c.url then
          (.resolved (c.url.getD "") c, [.details channelId])
        else (.noUrl, [.details channelId])
      | none =>
        match dir.findChannel channelId with
        | some c =>
          if strFieldTruthy c.url then
            (.resolved (c.url.getD "") c, [.details channelId, .find channelId])
          else (.noUrl, [.details channelId, .find channelId])
        | none => (.noUrl, [.details channelId, .find channelId])

/-! ### Player component: manual retry (lines 84, 312-321) -/

/-- `MAX_RETRIES = 3`. -/
def MAX_RETRIES : Nat := 3

/-- The error-related Player state touched by `retryStream`. -/
structure PlayerErrState where
  retryCount : Nat
  error : String
  errorDetails : String
  loading : Bool
deriving Repr, DecidableEq

/-- `retryStream` (lines 312-321): below the cap, clear the error and
increment the counter; at the cap, set the terminal message. -/
def retryStream (s : PlayerErrState) : PlayerErrState :=
  if s.retryCount < MAX_RETRIES then
    { s with error := "", errorDetails := "", loading := true,
             retryCount := s.retryCount + 1 }
  else
    { s with error := "Stream failed after multiple attempts. Please try again later." }

/-! ### Player component: live/VOD classification (lines 1380-1531) -/

/-- A reported media duration: `NaN` (metadata not yet known), infinite
(live per the engine), or a finite value. -/
inductive EDur where
  | nan
  | inf
  | fin (q : Int)
deriving Repr, DecidableEq

/-- One playback telemetry sample, as read off the video element:
`readyState`, `currentTime`, `duration`, and the first seekable range
(`none` when `video.seekable` is empty). -/
structure Sample where
  readyState : Nat
  currentTime : Int
  duration : EDur
  seekable : Option (Int × Int)
deriving Repr, DecidableEq

/-- The classification-related Player state: `isLive`, `showTimeline`,
`liveDetectionComplete`, and the `_liveChecks` counter kept on the video
element. -/
structure ClsState where
  isLive : Bool
  showTimeline : Bool
  liveDetectionComplete : Bool
  liveChecks : Nat
  duration : EDur
deriving Repr, DecidableEq

/-- Initial classification state of a fresh Player session. -/
def initClsState : ClsState :=
  { isLive := false, showTimeline := false, liveDetectionComplete := false,
    liveChecks := 0, duration := .nan }

/-- `handleDurationChange` (lines 1442-1461). -/
def handleDurationChange (d : EDur) (s : ClsState) : ClsState :=
  match d with
  | .nan => s
  | .inf =>
    { s with duration := .inf, isLive := true, showTimeline := false,
             liveDetectionComplete := true }
  | .fin q =>
    if q == 0 || q ≤ 0 then s
    else
      let s := { s with duration := .fin q }
      if q > 120 then
        { s with isLive := false, showTimeline := true,
                 liveDetectionComplete := true }
      else s

/-- The classification part of `handleTimeUpdate` (lines 1388-1440):
records a finite positive duration, and while detection is incomplete and
`readyState >= 3`, marks detection complete and classifies by the current
duration. -/
def handleTimeUpdateCls (smp : Sample) (s : ClsState) : ClsState :=
  let s :=
    match smp.duration with
    | .fin q => if q > 0 then { s with duration := .fin q } else s
    | _ => s
  if !s.liveDetectionComplete && smp.readyState ≥ 3 then
    let s := { s with liveDetectionComplete := true }
    match smp.duration with
    | .inf => { s with isLive := true, showTimeline := false }
    | .fin q => if q > 0 then { s with isLive := false, showTimeline := true } else s
    | .nan => s
  else s

/-- `checkStreamType` (lines 1464-1513), the 1-second interval check. -/
def checkStreamType (smp : Sample) (s : ClsState) : ClsState :=
  if smp.readyState < 2 then s
  else if smp.currentTime ≤ 0 then s
  else
    match smp.duration with
    | .fin d =>
      if d > 0 then
        let timeFromEnd := d - smp.currentTime
        if d > 120 then
          if s.isLive then { s with isLive := false, showTimeline := true } else s
        else if timeFromEnd < 3 then
          let c := s.liveChecks
          let s' := { s with liveChecks := c + 1 }
          if c > 5 then { s' with isLive := true, showTimeline := false } else s'
        else
          let s' := { s with liveChecks := 0 }
          if !s'.showTimeline then
            match smp.seekable with
            | some se =>
              if se.2 - se.1 > 30 then
                { s' with showTimeline := true, isLive := false }
              else s'
            | none => s'
          else s'
      else s
    | _ => s

/-- A playback telemetry event fed to the classifier. -/
inductive TelemetryEvent where
  | durationChange (d : EDur)
  | timeUpdate (smp : Sample)
  | check (smp : Sample)
deriving Repr, DecidableEq

/-- One classifier step: dispatch a telemetry event to its handler. -/
def classifyStep : TelemetryEvent → ClsState → ClsState
  | .durationChange d, s => handleDurationChange d s
  | .timeUpdate smp, s => handleTimeUpdateCls smp s
  | .check smp, s => checkStreamType smp s

/-! ### Player component: HLS error handler (lines 716-852) -/

/-- Substring containment over character lists (auxiliary for
`strContains`). -/
def charsContain : List Char → List Char → Bool
  | [], needle => needle.isEmpty
  | c :: rest, needle => needle.isPrefixOf (c :: rest) || charsContain rest needle

/-- Substring containment, the JS `String.prototype.includes`. -/
def strContains (hay needle : String) : Bool :=
  charsContain hay.data needle.data

/-- The `data.response` object of an hls.js error event (fields may be
absent). -/
structure HlsResponse where
  code : Option Int
  text : Option String
deriving Repr, DecidableEq

/-- The `data.networkDetails` object of an hls.js error event (the
underlying XHR). -/
structure HlsNetworkDetails where
  status : Option Int
  statusText : Option String
deriving Repr, DecidableEq

/-- An hls.js error event as consumed by the Player's `ERROR` handler.
`typ` is `data.type` (hls.js uses the strings `networkError`,
`mediaError`, `otherError`), `details` is `data.details`
(e.g. `manifestLoadError`); `errorMessage = some m` models a present
`data.error` object whose `message` is `m` (`""` when absent). -/
structure HlsErrorData where
  typ : String
  details : String
  fatal : Bool
  response : Option HlsResponse
  networkDetails : Option HlsNetworkDetails
  errorMessage : Option String
deriving Repr, DecidableEq

/-- The Player state the error handler consults. -/
structure PlayerCtx where
  streamLoaded : Bool
  videoPresent : Bool
  videoPaused : Bool
  loading : Bool
  autoplayAttempted : Bool
  retryCount : Nat
deriving Repr, DecidableEq

/-- The CORS heuristic (lines 731-735): a zero `response.code`, a response
text mentioning CORS, an error message mentioning CORS, or any
network-type `manifestLoadError`. -/
def isCorsError (d : HlsErrorData) : Bool :=
  (match d.response with
   | some r => r.code == some 0
   | none => false) ||
  (match d.response with
   | some r =>
     match r.text with
     | some t => t != "" && strContains t "CORS"
     | none => false
   | none => false) ||
  (match d.errorMessage with
   | some m => strContains m "CORS"
   | none => false) ||
  (d.typ == "networkError" && d.details == "manifestLoadError")

/-- The decision the Player's HLS `ERROR` handler reaches, in source
order. -/
inductive HlsErrorAction where
  /-- Already playing: the event is ignored (line 725-728). -/
  | ignorePlaying
  /-- Terminal: `setError("Stream access restricted (CORS policy)")`
  (lines 737-757). -/
  | corsRestricted
  /-- Scheduled stop/load/start restart for a matching internal exception
  (lines 760-786). -/
  | internalExceptionRecovery
  /-- Network error during initial load: `hls.startLoad()` with no error
  surfaced (lines 794-803). -/
  | transparentStartLoad
  /-- Terminal: `handleInvalidStream('Stream unavailable: ...')`, the
  server-unreachable path (lines 813-822). -/
  | serverUnreachable
  /-- `hls.startLoad()` retry after a fatal network error (lines
  825-831). -/
  | startLoadRetry
  /-- `hls.recoverMediaError()` (lines 834-843). -/
  | recoverMedia
  /-- Terminal: `handleInvalidStream('Fatal streaming error: ...')`
  (lines 845-849). -/
  | fatalOther (details : String)
  /-- Non-fatal event with no matching special case: no action. -/
  | nonFatalIgnored
deriving Repr, DecidableEq

/-- The Player's HLS `ERROR` handler (lines 716-852) as a decision
function from the event data and the current Player state to the action
taken. -/
def hlsErrorHandler (d : HlsErrorData) (ctx : PlayerCtx) : HlsErrorAction :=
  if ctx.streamLoaded && ctx.videoPresent && !ctx.videoPaused then
    .ignorePlaying
  else if isCorsError d then .corsRestricted
  else if d.typ == "otherError" && d.details == "internalException" &&
      (match d.errorMessage with
       | some m => m != "" &&
           (strContains m "autoplayAttempted" || strContains m "undefined")
       | none => false) then
    .internalExceptionRecovery
  else if d.fatal then
    if d.typ == "networkError" then
      if ctx.loading && !ctx.autoplayAttempted then .transparentStartLoad
      else if d.details == "manifestLoadError" &&
          decide (0 < ctx.retryCount) &&
          ((match d.networkDetails with
            | some nd => nd.status == some 0
            | none => false) ||
           (match d.networkDetails with
            | some nd => nd.statusText == some ""
            | none => false) ||
           (match d.response with
            | some r =>
              match r.text with
              | some t => strContains t "ERR_NAME_NOT_RESOLVED"
              | none => false
            | none => false)) then
        .serverUnreachable
      else .startLoadRetry
    else if d.typ == "mediaError" then .recoverMedia
    else .fatalOther d.details
  else .nonFatalIgnored

/-! ### Player component: watch history update (lines 586-599) -/

/-- The channel object built by `loadChannelDetails`; its `id` is the
resolved stream URL. -/
structure HistChannel where
  id : String
  name : String
  channelId : Option String
  group : String
  logo : Option String
deriving Repr, DecidableEq

/-- One watch-history entry. -/
structure HistoryItem where
  timestamp : Int
  channel : HistChannel
deriving Repr, DecidableEq

/-- The history update in `loadChannelDetails` (lines 593-599): prepend
the new entry, drop every earlier entry with the same channel id (= same
stream URL), and keep at most 100 entries. -/
def updateWatchHistory (history : List HistoryItem) (newItem : HistoryItem) :
    List HistoryItem :=
  (newItem :: history.filter (fun item => item.channel.id != newItem.channel.id)).take 100

/-! ### PictureInPictureContext.jsx: `enterPiP` (lines 240-504) -/

/-- JS object spread update: replace the value of an existing key in
place, or append a new key. -/
def spreadSet (fs : List (String × JVal)) (k : String) (v : JVal) :
    List (String × JVal) :=
  if fs.any (fun kv => kv.1 == k) then
    fs.map (fun kv => if kv.1 == k then (k, v) else kv)
  else fs ++ [(k, v)]

/-- Field lookup in an options list (`options.k`; `undefined` when
absent). -/
def optField (fs : List (String × JVal)) (k : String) : JVal :=
  ((fs.find? (fun kv => kv.1 == k)).map Prod.snd).getD .jsUndefined

/-- Result of the browser's `requestPictureInPicture()` call. -/
inductive PipReqResult where
  | ok
  | notAllowed
  | failed
deriving Repr, DecidableEq

/-- The browser/engine environment `enterPiP` runs against: feature
support, whether a PiP session already exists, and the outcomes of the
suspension points (manifest load before the 10 s timeout, the `play()`
promise, the PiP request).  `playErrMsg`/`pipErrMsg` are the messages of
the corresponding rejection errors. -/
structure PipEnv where
  supported : Bool
  existingPip : Bool
  hlsSupported : Bool
  nativeHls : Bool
  manifestParses : Bool
  playOk : Bool
  pipReq : PipReqResult
  playErrMsg : String
  pipErrMsg : String
deriving Repr, DecidableEq

/-- Observable actions of the PiP manager, in execution order. -/
inductive PipAct where
  /-- `savePipState(channel, streamUrl, options)` with the record it
  writes. -/
  | save (record : JVal)
  | setChannel
  | setStreamUrl
  | status (s : String)
  /-- `setPipError` (`none` = cleared). -/
  | err (e : Option String)
  /-- `exitPipInternal()` teardown of a previous session. -/
  | exitInternal
  /-- Create the off-screen video element and add it to the DOM. -/
  | createVideo
  /-- Bind an hls.js engine instance and attach media. -/
  | hlsAttach
  /-- Safari native HLS: assign `video.src`. -/
  | nativeAttach
  /-- `requestPictureInPicture()`. -/
  | requestPiP
  | setVideo
  /-- `cleanupPipResources()` (includes `clearPipState()`). -/
  | cleanupRes
  | applyVolume
  | unmuteDelayed

/-- `enterPiP(channel, streamUrl, options)` (lines 240-504), linearized
over the environment's suspension-point outcomes, as the list of actions
it performs. -/
def enterPiP (env : PipEnv) (now : Int) (channel streamUrl : JVal)
    (options : List (String × JVal)) : List PipAct :=
  if !env.supported then
    [.err (some "Picture-in-Picture not supported in this browser")]
  else if !channel.truthy || !streamUrl.truthy then []
  else
    let pendingRec :=
      pipStateRecord channel streamUrl (spreadSet options "pendingPiP" (.bool true)) now
    let pre : List PipAct := [.save pendingRec, .setChannel]
    if !(optField options "fromUserGesture").truthy then
      pre ++ [.status "pending", .err (some "Click to activate PiP")]
    else
      let activeRec :=
        pipStateRecord channel streamUrl (spreadSet options "pendingPiP" (.bool false)) now
      let needsActRec :=
        pipStateRecord channel streamUrl (spreadSet options "needsActivation" (.bool true)) now
      let volumeIsNum := (optField options "volume").typeofStr == "number"
      let wasMutedFalse := optField options "wasMuted" == JVal.bool false
      let setup : List PipAct :=
        [.err none, .status "initializing"] ++
        (if env.existingPip then [PipAct.exitInternal] else []) ++
        [.createVideo, .setStreamUrl, .setChannel, .save activeRec]
      let playPhase : List PipAct :=
        if env.hlsSupported then
          [.status "loading", .hlsAttach] ++
          (if env.manifestParses then
            [.status "ready"] ++
            (if env.playOk then
              [.status "playing", .requestPiP] ++
              (match env.pipReq with
               | .ok =>
                 [.setVideo, .err none, .status "active"] ++
                 (if volumeIsNum then [PipAct.applyVolume] else []) ++
                 (if wasMutedFalse then [PipAct.unmuteDelayed] else [])
               | .notAllowed =>
                 [.setVideo, .err (some "Click to activate PiP mode"),
                  .status "needsActivation", .save needsActRec]
               | .failed =>
                 [.status "error", .cleanupRes,
                  .err (some ("Failed to enter PiP mode: " ++ env.pipErrMsg))])
            else
              [.status "error", .cleanupRes,
               .err (some ("Playback failed to start: " ++ env.playErrMsg))])
          else
            [.status "error", .cleanupRes,
             .err (some "Stream initialization timed out")])
        else if env.nativeHls then
          [.status "loading", .nativeAttach] ++
          (if env.manifestParses then
            [.status "playing"] ++
            (if env.playOk then
              [.requestPiP] ++
              (match env.pipReq with
               | .ok =>
                 [.setVideo, .status "active"] ++
                 (if volumeIsNum then [PipAct.applyVolume] else [])
               | _ =>
                 [.status "error", .cleanupRes,
                  .err (some ("Failed to enter PiP mode: " ++ env.pipErrMsg))])
            else
              [.status "error", .cleanupRes,
               .err (some ("Failed to enter PiP mode: " ++ env.playErrMsg))])
          else
            [.status "error", .cleanupRes,
             .err (some "Stream initialization timed out")])
        else
          [.status "error", .cleanupRes,
           .err (some "Failed to setup PiP: HLS is not supported in this browser")]
      pre ++ setup ++ playPhase

/-! ## Claim theorems -/

/-- C1: For every persisted PiP record whose timestamp is more than 30
minutes (1,800,000 ms) before the current time, `loadPipState()` returns
`null` and the record is removed from storage; for any structurally valid
record at most 30 minutes old, `loadPipState()` returns the stored
record. -/
theorem C1_loadPipState_expiry (state : JVal) (now : Int) :
    (now - (state.getField "timestamp").toNum > PIP_EXPIRY_TIME →
      loadPipState (some state) now = (none, none)) ∧
    (isValidPipState state = true →
      now - (state.getField "timestamp").toNum ≤ PIP_EXPIRY_TIME →
      loadPipState (some state) now = (some state, some state)) := by
  constructor
  · intro hexp
    by_cases hv : isValidPipState state
    · simp [loadPipState, hv, hexp]
    · simp [loadPipState, hv]
  · intro hv hfresh
    simp [loadPipState, hv, not_lt.mpr hfresh]

/-- C1 witness: a structurally valid record with timestamp 0 is returned
at `now = 1,800,000` (exactly 30 minutes) and expired at
`now = 1,800,001`. -/
theorem C1_loadPipState_expiry_witness :
    loadPipState
        (some (.obj [("channel", .obj [("name", .str "News 24")]),
          ("streamUrl", .str "http://host/live.m3u8"), ("timestamp", .num 0)]))
        1800001 = (none, none) ∧
    loadPipState
        (some (.obj [("channel", .obj [("name", .str "News 24")]),
          ("streamUrl", .str "http://host/live.m3u8"), ("timestamp", .num 0)]))
        1800000 =
      (some (.obj [("channel", .obj [("name", .str "News 24")]),
          ("streamUrl", .str "http://host/live.m3u8"), ("timestamp", .num 0)]),
       some (.obj [("channel", .obj [("name", .str "News 24")]),
          ("streamUrl", .str "http://host/live.m3u8"), ("timestamp", .num 0)])) :=
  ⟨(C1_loadPipState_expiry _ 1800001).1 (by decide),
   (C1_loadPipState_expiry _ 1800000).2 (by decide) (by decide)⟩

/-- C2: Every stored PiP record that fails structural validation (no
channel object, `channel.name` not a string, `streamUrl` not a string of
length greater than 5, or `timestamp` not a number) makes `loadPipState()`
return `null` and delete the record from storage, and `loadPipState()`
never returns a record failing that validation. -/
theorem C2_loadPipState_validation (now : Int) :
    (∀ state : JVal, isValidPipState state = false →
      loadPipState (some state) now = (none, none)) ∧
    (∀ (storage : Option JVal) (s : JVal),
      (loadPipState storage now).1 = some s → isValidPipState s = true) := by
  constructor
  · intro state hinv
    simp [loadPipState, hinv]
  · intro storage s h
    match storage with
    | none => simp [loadPipState] at h
    | some state =>
      by_cases hv : isValidPipState state
      · by_cases he : now - (state.getField "timestamp").toNum > PIP_EXPIRY_TIME
        · simp [loadPipState, hv, he] at h
        · simp [loadPipState, hv, he] at h
          rwa [← h]
      · simp [loadPipState, hv] at h

/-- C2 witness: a record with a too-short `streamUrl` is rejected and
deleted. -/
theorem C2_loadPipState_validation_witness :
    loadPipState
        (some (.obj [("channel", .obj [("name", .str "News 24")]),
          ("streamUrl", .str "x.ts"), ("timestamp", .num 0)])) 5 =
      (none, none) :=
  (C2_loadPipState_validation 5).1 _ (by decide)

/-- C5: Every channel reference whose URL path ends in a recognized
stream/playlist extension (`.m3u8`, `.m3u`, `.ts`) resolves to that URL
unchanged, with no channel metadata, and the resolving phase performs no
Channel Directory Service call. -/
theorem C5_direct_url_resolution (dir : Directory) (ref : ChannelRef)
    (hdirect : isDirectStreamUrl ref = true) :
    resolveAndLoadStream dir ref = (.direct ref.raw, []) := by
  simp [resolveAndLoadStream, hdirect]

/-- C5 witness: a direct `.m3u8` URL, against a directory that would
answer every query, is returned unchanged with an empty call log. -/
theorem C5_direct_url_resolution_witness :
    resolveAndLoadStream
        { getChannelDetails := fun _ => some
            { name := some "Decoy", url := some "http://decoy/d.m3u8",
              logo := none, group := none, category := none, id := some "d" },
          findChannel := fun _ => some
            { name := some "Decoy", url := some "http://decoy/d.m3u8",
              logo := none, group := none, category := none, id := some "d" } }
        { raw := "http://host/live.m3u8", parsedPath := some "/live.m3u8" } =
      (.direct "http://host/live.m3u8", []) :=
  C5_direct_url_resolution _ _ (by decide)

/-- C6: The manual retry count is capped at `MAX_RETRIES = 3`: every
retry request below the cap clears the error and increments the counter
by one; a request at the cap is rejected, setting the terminal
"failed after multiple attempts" message without changing the counter,
and every further request leaves the session in that same terminal
state. -/
theorem C6_retry_cap (s : PlayerErrState) :
    (s.retryCount < 3 →
      retryStream s = ⟨s.retryCount + 1, "", "", true⟩) ∧
    (3 ≤ s.retryCount →
      retryStream s =
        { s with error := "Stream failed after multiple attempts. Please try again later." } ∧
      (retryStream s).retryCount = s.retryCount ∧
      retryStream (retryStream s) = retryStream s) := by
  constructor
  · intro h
    simp [retryStream, MAX_RETRIES, h]
  · intro h
    have h' : ¬ s.retryCount < MAX_RETRIES := by simp [MAX_RETRIES]; omega
    refine ⟨by simp [retryStream, h'], by simp [retryStream, h'], ?_⟩
    simp [retryStream, h']

/-- C6 witness: from a session with no prior manual retries, the first
three requests increment 0 → 1 → 2 → 3 while clearing the error, and the
fourth request is rejected with the terminal message. -/
theorem C6_retry_cap_witness :
    retryStream ⟨0, "load failed", "detail", false⟩ = ⟨1, "", "", true⟩ ∧
    retryStream ⟨1, "load failed", "detail", false⟩ = ⟨2, "", "", true⟩ ∧
    retryStream ⟨2, "load failed", "detail", false⟩ = ⟨3, "", "", true⟩ ∧
    retryStream ⟨3, "load failed", "detail", false⟩ =
      ⟨3, "Stream failed after multiple attempts. Please try again later.",
       "detail", false⟩ ∧
    retryStream (retryStream ⟨3, "load failed", "detail", false⟩) =
      retryStream ⟨3, "load failed", "detail", false⟩ :=
  ⟨(C6_retry_cap _).1 (by decide), (C6_retry_cap _).1 (by decide),
   (C6_retry_cap _).1 (by decide), ((C6_retry_cap _).2 (by decide)).1,
   ((C6_retry_cap _).2 (by decide)).2.2⟩

/-- C10: After a channel is opened, the updated watch history holds at
most 100 entries, the entry for the just-opened channel is first, every
other entry for the same channel id (= stream URL) has been removed, and
entries with pairwise-distinct channel ids stay pairwise distinct. -/
theorem C10_watch_history (history : List HistoryItem) (newItem : HistoryItem)
    (hdist : history.Pairwise (fun a b => a.channel.id ≠ b.channel.id)) :
    (updateWatchHistory history newItem).length ≤ 100 ∧
    (updateWatchHistory history newItem).head? = some newItem ∧
    (updateWatchHistory history newItem).Pairwise
      (fun a b => a.channel.id ≠ b.channel.id) ∧
    (∀ item ∈ updateWatchHistory history newItem,
      item ≠ newItem → item.channel.id ≠ newItem.channel.id) := by
  refine ⟨List.length_take_le _ _, rfl, ?_, ?_⟩
  · refine List.Pairwise.sublist (List.take_sublist _ _) ?_
    refine List.pairwise_cons.mpr ⟨?_, ?_⟩
    · intro b hb
      have hbne : b.channel.id ≠ newItem.channel.id := by
        simpa [bne_iff_ne] using (List.mem_filter.mp hb).2
      exact fun h => hbne h.symm
    · exact List.Pairwise.sublist (List.filter_sublist _) hdist
  · intro item hmem hne
    have hmem' : item ∈ newItem ::
        history.filter (fun it => it.channel.id != newItem.channel.id) :=
      List.take_subset _ _ hmem
    rcases List.mem_cons.mp hmem' with h | h
    · exact absurd h hne
    · simpa [bne_iff_ne] using (List.mem_filter.mp h).2

/-- C10 witness: opening a channel already present in a two-entry history
deduplicates it, puts it first, and keeps the bound. -/
theorem C10_watch_history_witness :
    updateWatchHistory
        [⟨5, ⟨"http://a/x.m3u8", "A", none, "G", none⟩⟩,
         ⟨4, ⟨"http://b/y.m3u8", "B", none, "G", none⟩⟩]
        ⟨9, ⟨"http://a/x.m3u8", "A", none, "G", none⟩⟩ =
      [⟨9, ⟨"http://a/x.m3u8", "A", none, "G", none⟩⟩,
       ⟨4, ⟨"http://b/y.m3u8", "B", none, "G", none⟩⟩] ∧
    (updateWatchHistory
        [⟨5, ⟨"http://a/x.m3u8", "A", none, "G", none⟩⟩,
         ⟨4, ⟨"http://b/y.m3u8", "B", none, "G", none⟩⟩]
        ⟨9, ⟨"http://a/x.m3u8", "A", none, "G", none⟩⟩).Pairwise
      (fun a b => a.channel.id ≠ b.channel.id) :=
  ⟨by decide,
   (C10_watch_history
      [⟨5, ⟨"http://a/x.m3u8", "A", none, "G", none⟩⟩,
       ⟨4, ⟨"http://b/y.m3u8", "B", none, "G", none⟩⟩]
      ⟨9, ⟨"http://a/x.m3u8", "A", none, "G", none⟩⟩
      (by simp [List.pairwise_cons])).2.2.1⟩

/-- A directory whose details lookup knows the channel but has no stream
URL for it, while `findChannel` has one (used to settle C4). -/
def dirNoUrlDetails : Directory :=
  { getChannelDetails := fun _ => some
      { name := some "Alpha", url := none, logo := none, group := none,
        category := none, id := some "alpha" },
    findChannel := fun _ => some
      { name := some "Alpha", url := some "http://alpha/live.m3u8",
        logo := none, group := none, category := none, id := some "alpha" } }

/-- The non-URL channel reference used to settle C4. -/
def refAlpha : ChannelRef := { raw := "alpha", parsedPath := none }

/-- C4 counterexample: the directory holds a hit that includes a stream
URL (via `findChannel`), yet resolution fails with "no stream URL",
because the details lookup answered first with a channel lacking a URL
and the code never falls through to the next strategy on a URL-less
hit.  This refutes "returns the first hit that includes a stream URL"
(and with it the claimed id → name → details strategy order, since only
`getChannelDetails` is ever consulted here). -/
theorem C4_first_hit_counterexample :
    dirNoUrlDetails.findChannel "alpha" =
      some { name := some "Alpha", url := some "http://alpha/live.m3u8",
             logo := none, group := none, category := none, id := some "alpha" } ∧
    resolveAndLoadStream dirNoUrlDetails refAlpha =
      (.noUrl, [.details "alpha"]) :=
  ⟨rfl, rfl⟩

/-- C4 (amended): for a reference that is not a direct stream URL, the
resolving phase queries `getChannelDetails` first and `findChannel` only
when the former returned no channel (there is no separate by-name step),
and it succeeds exactly when that first hit carries a truthy stream URL —
a hit without one aborts resolution instead of trying further
strategies. -/
theorem C4_resolution_order (dir : Directory) (ref : ChannelRef)
    (hnd : isDirectStreamUrl ref = false) (hraw : ref.raw ≠ "") :
    (resolveAndLoadStream dir ref).2 =
      (match dir.getChannelDetails ref.raw with
       | some _ => [.details ref.raw]
       | none => [.details ref.raw, .find ref.raw]) ∧
    (resolveAndLoadStream dir ref).1 =
      (match (match dir.getChannelDetails ref.raw with
              | some c => some c
              | none => dir.findChannel ref.raw) with
       | some c =>
         if strFieldTruthy c.url then .resolved (c.url.getD "") c else .noUrl
       | none => .noUrl) := by
  have hbeq : (ref.raw == "") = false := by simpa using hraw
  cases hd : dir.getChannelDetails ref.raw with
  | some c =>
    constructor <;>
      simp [resolveAndLoadStream, extractChannelId, hnd, hbeq, hd] <;>
      split <;> simp
  | none =>
    cases hf : dir.findChannel ref.raw with
    | some c =>
      constructor <;>
        simp [resolveAndLoadStream, extractChannelId, hnd, hbeq, hd, hf] <;>
        split <;> simp
    | none =>
      constructor <;>
        simp [resolveAndLoadStream, extractChannelId, hnd, hbeq, hd, hf]

/-- C4 witness: the amended resolution contract evaluated on the concrete
directory and reference of the counterexample. -/
theorem C4_resolution_order_witness :
    (resolveAndLoadStream dirNoUrlDetails refAlpha).2 = [.details "alpha"] ∧
    (resolveAndLoadStream dirNoUrlDetails refAlpha).1 = .noUrl := by
  have h := C4_resolution_order dirNoUrlDetails refAlpha (by decide) (by decide)
  exact ⟨h.1.trans rfl, h.2.trans rfl⟩

/-- C3 counterexample: an array-valued option (`xs = [1]`) is not a
function and not a non-array object, so sanitization keeps it, and the
persisted record then contains a non-primitive (array) value — refuting
"the persisted record contains only JSON-serializable primitive values
(every option value that is a function or a nested object is
dropped)". -/
theorem C3_array_option_counterexample :
    (savePipState (.obj [("id", .str "c1"), ("name", .str "News 24")])
        (.str "http://host/live.m3u8") [("xs", .arr [.num 1])]
        0 none false).2.map
      (fun r => (r.getField "options").getField "xs") =
      some (.arr [.num 1]) ∧
    JVal.isPrimitive (.arr [.num 1]) = false :=
  ⟨rfl, rfl⟩

/-- C3 (amended): `savePipState` persists the sanitized record, in which
every kept option value is a JSON primitive or an array (functions and
non-null, non-array objects are dropped; arrays are retained), and a
write failure deletes the stored record rather than leaving a
corrupt/partial one. -/
theorem C3_sanitize_invariants (channel streamUrl : JVal)
    (options : List (String × JVal)) (now : Int) (storage : Option JVal)
    (hch : channel.truthy = true) (hurl : streamUrl.truthy = true) :
    savePipState channel streamUrl options now storage true = (false, none) ∧
    savePipState channel streamUrl options now storage false =
      (true, some (pipStateRecord channel streamUrl options now)) ∧
    (∀ kv ∈ sanitizeOptions options,
      (kv.2.isPrimitive || kv.2.isArray) = true) := by
  refine ⟨by simp [savePipState, hch, hurl], by simp [savePipState, hch, hurl], ?_⟩
  intro kv hkv
  have hkeep := (List.mem_filter.mp hkv).2
  rcases kv with ⟨k, v⟩
  cases v with
  | jsUndefined => rfl
  | null => rfl
  | bool b => rfl
  | num q => rfl
  | str s => rfl
  | arr xs => rfl
  | obj fs => exact absurd hkeep (fun hcon => Bool.noConfusion hcon)
  | func t => exact absurd hkeep (fun hcon => Bool.noConfusion hcon)

/-- C3 witness: the amended save contract evaluated on a concrete channel
and a mixed options object (one function-valued, one object-valued, one
array-valued, one primitive option). -/
theorem C3_sanitize_invariants_witness :
    savePipState (.obj [("id", .str "c1"), ("name", .str "News 24")])
        (.str "http://host/live.m3u8")
        [("volume", .num 1), ("onClose", .func 7),
         ("meta", .obj [("a", .num 2)]), ("xs", .arr [.num 1])]
        0 (some (.str "previous")) true = (false, none) ∧
    (savePipState (.obj [("id", .str "c1"), ("name", .str "News 24")])
        (.str "http://host/live.m3u8")
        [("volume", .num 1), ("onClose", .func 7),
         ("meta", .obj [("a", .num 2)]), ("xs", .arr [.num 1])]
        0 (some (.str "previous")) false).2.map
      (fun r => r.getField "options") =
      some (.obj [("volume", .num 1), ("xs", .arr [.num 1])]) := by
  have h := C3_sanitize_invariants
    (.obj [("id", .str "c1"), ("name", .str "News 24")])
    (.str "http://host/live.m3u8")
    [("volume", .num 1), ("onClose", .func 7),
     ("meta", .obj [("a", .num 2)]), ("xs", .arr [.num 1])]
    0 (some (.str "previous")) (by decide) (by decide)
  exact ⟨h.1, by rw [h.2.1]; rfl⟩

/-- C7 counterexample: after an infinite-duration sample the
classification is terminal live (`liveDetectionComplete = true`,
`isLive = true`), yet one further `checkStreamType` sample with a finite
duration of 200 s flips it back to seekable — refuting "feeding further
samples never changes the classification". -/
theorem C7_classifier_flip_counterexample :
    (classifyStep (.durationChange .inf) initClsState).liveDetectionComplete
      = true ∧
    (classifyStep (.durationChange .inf) initClsState).isLive = true ∧
    (classifyStep (.check ⟨3, 10, .fin 200, none⟩)
        (classifyStep (.durationChange .inf) initClsState)).isLive = false :=
  ⟨rfl, rfl, rfl⟩

/-- C7 (amended): the detection-complete flag is monotone (no sample ever
resets it), and a terminal classification is stable under samples of the
same kind — an infinite-duration sample keeps a live classification, and
finite samples longer than 120 s keep a seekable classification — but
samples of the opposite kind can still flip a terminal classification
(a finite duration over 120 s reclassifies live → seekable, and
persistent near-end samples reclassify → live). -/
theorem C7_classifier_stability (s : ClsState) :
    (∀ e, s.liveDetectionComplete = true →
      (classifyStep e s).liveDetectionComplete = true) ∧
    (s.isLive = true →
      (classifyStep (.durationChange .inf) s).isLive = true) ∧
    (∀ q, s.isLive = false → 120 < q →
      (classifyStep (.durationChange (.fin q)) s).isLive = false) ∧
    (∀ smp q, s.isLive = false → smp.duration = .fin q → 120 < q →
      (classifyStep (.check smp) s).isLive = false) := by
  refine ⟨?_, fun _ => rfl, ?_, ?_⟩
  · intro e h
    cases e <;>
      simp only [classifyStep, handleDurationChange, handleTimeUpdateCls,
        checkStreamType] <;>
      (repeat' split) <;> simp_all
  · intro q h h120
    simp only [classifyStep, handleDurationChange]
    (repeat' split) <;> simp_all
  · intro smp q h hdur h120
    simp only [classifyStep, checkStreamType]
    rw [hdur]
    (repeat' split) <;> simp_all
    omega

/-- C7 witness: the stability properties evaluated at a concrete terminal
state and concrete samples. -/
theorem C7_classifier_stability_witness :
    (classifyStep (.durationChange .inf)
        ⟨true, false, true, 0, .inf⟩).liveDetectionComplete = true ∧
    (classifyStep (.durationChange .inf) ⟨true, false, true, 0, .inf⟩).isLive
      = true ∧
    (classifyStep (.durationChange (.fin 200))
        ⟨false, true, true, 0, .fin 200⟩).isLive = false ∧
    (classifyStep (.check ⟨3, 10, .fin 200, none⟩)
        ⟨false, true, true, 0, .fin 200⟩).isLive = false :=
  ⟨(C7_classifier_stability ⟨true, false, true, 0, .inf⟩).1
      (.durationChange .inf) (by decide),
   (C7_classifier_stability ⟨true, false, true, 0, .inf⟩).2.1 (by decide),
   (C7_classifier_stability ⟨false, true, true, 0, .fin 200⟩).2.2.1 200
      (by decide) (by decide),
   (C7_classifier_stability ⟨false, true, true, 0, .fin 200⟩).2.2.2
      ⟨3, 10, .fin 200, none⟩ 200 (by decide) (by decide) (by decide)⟩

/-- The `options` field of a persisted record is the sanitized,
JSON-normalized options object, whatever the channel and stream URL
values are. -/
theorem pipStateRecord_options (channel streamUrl : JVal)
    (options : List (String × JVal)) (now : Int) :
    (pipStateRecord channel streamUrl options now).getField "options" =
      .obj (jsonNormalizeFields (sanitizeOptions options)) := by
  cases streamUrl <;> rfl

/-- Field lookup on an object unfolds one cons cell at a time. -/
theorem getField_obj_cons (k₁ : String) (v : JVal)
    (rest : List (String × JVal)) (k : String) :
    (JVal.obj ((k₁, v) :: rest)).getField k =
      if (k₁ == k) then v else (JVal.obj rest).getField k := by
  by_cases h : (k₁ == k) = true <;> simp [JVal.getField, List.find?_cons, h]

/-- After a spread update `\x7b ...fs, k: v \x7d`, every entry with key `k`
holds `v`. -/
theorem spreadSet_all (fs : List (String × JVal)) (k : String) (v : JVal) :
    ∀ kv ∈ spreadSet fs k v, kv.1 = k → kv.2 = v := by
  intro kv hkv hk1
  unfold spreadSet at hkv
  split at hkv
  · obtain ⟨a, ha, rfl⟩ := List.mem_map.mp hkv
    by_cases h : (a.1 == k) = true
    · simp [h]
    · simp only [h, if_neg] at hk1 ⊢
      simp at h
      exact absurd hk1 (by simpa using h)
  · rcases List.mem_append.mp hkv with h | h
    · rename_i hnone
      exact absurd (List.any_eq_true.mpr ⟨kv, h, by simp [hk1]⟩) hnone
    · simp at h
      rw [h]

/-- After a spread update `\x7b ...fs, k: v \x7d`, some entry carries key
`k`. -/
theorem spreadSet_any (fs : List (String × JVal)) (k : String) (v : JVal) :
    (spreadSet fs k v).any (fun kv => kv.1 == k) = true := by
  unfold spreadSet
  split
  · rename_i hany
    obtain ⟨a, ha, hak⟩ := List.any_eq_true.mp hany
    refine List.any_eq_true.mpr ⟨(k, v), List.mem_map.mpr ⟨a, ha, ?_⟩, by simp⟩
    simp [hak]
  · exact List.any_eq_true.mpr ⟨(k, v), List.mem_append_right _ (by simp), by simp⟩

/-- If every entry with key `k` holds the boolean `b` and some entry has
key `k`, then the sanitized, JSON-normalized object still maps `k` to
`b`: booleans survive both the option sanitization and JSON
serialization. -/
theorem getField_sanitized_bool (fs : List (String × JVal)) (k : String)
    (b : Bool) (hall : ∀ kv ∈ fs, kv.1 = k → kv.2 = .bool b)
    (hex : fs.any (fun kv => kv.1 == k) = true) :
    (JVal.obj (jsonNormalizeFields (sanitizeOptions fs))).getField k
      = .bool b := by
  induction fs with
  | nil => simp at hex
  | cons hd tl ih =>
    rcases hd with ⟨k₁, v₁⟩
    by_cases hk : k₁ = k
    · have hv : v₁ = .bool b := hall (k₁, v₁) (List.mem_cons_self _ _) hk
      subst hk
      subst hv
      simp [sanitizeOptions, List.filter_cons, dropOptionValue, JVal.typeofStr,
        JVal.isArray, jsonNormalizeFields, jsonNormalize, getField_obj_cons]
    · have hk' : (k₁ == k) = false := by simpa using hk
      have hex' : tl.any (fun kv => kv.1 == k) = true := by
        rcases List.any_eq_true.mp hex with ⟨a, ha, hak⟩
        rcases List.mem_cons.mp ha with rfl | ha'
        · exact absurd (by simpa using hak) hk
        · exact List.any_eq_true.mpr ⟨a, ha', hak⟩
      have hall' : ∀ kv ∈ tl, kv.1 = k → kv.2 = .bool b :=
        fun kv hkv => hall kv (List.mem_cons_of_mem _ hkv)
      have ihr := ih hall' hex'
      by_cases hdrop : dropOptionValue v₁ = true
      · simpa [sanitizeOptions, List.filter_cons, hdrop] using ihr
      · cases v₁ <;>
          simp_all [sanitizeOptions, List.filter_cons, jsonNormalizeFields,
            getField_obj_cons, hk']

/-- C8: A PiP request without the user-gesture flag makes the manager
persist a record whose options carry `pendingPiP = true`, set the channel,
enter the `pending` status with the activation prompt, and return — with
no browser PiP call, no video-element creation, and no engine setup. -/
theorem C8_enterPiP_pending (env : PipEnv) (now : Int)
    (channel streamUrl : JVal) (options : List (String × JVal))
    (hsup : env.supported = true) (hch : channel.truthy = true)
    (hurl : streamUrl.truthy = true)
    (hges : (optField options "fromUserGesture").truthy = false) :
    enterPiP env now channel streamUrl options =
      [.save (pipStateRecord channel streamUrl
          (spreadSet options "pendingPiP" (.bool true)) now),
       .setChannel, .status "pending", .err (some "Click to activate PiP")] ∧
    ((pipStateRecord channel streamUrl
          (spreadSet options "pendingPiP" (.bool true)) now).getField
        "options").getField "pendingPiP" = .bool true := by
  constructor
  · simp [enterPiP, hsup, hch, hurl, hges]
  · rw [pipStateRecord_options]
    exact getField_sanitized_bool _ _ _ (spreadSet_all _ _ _) (spreadSet_any _ _ _)

/-- C8 witness: a concrete no-gesture request in a fully capable
environment performs exactly the persist/flag/prompt actions. -/
theorem C8_enterPiP_pending_witness :
    enterPiP ⟨true, false, true, false, true, true, .ok, "", ""⟩ 0
        (.obj [("id", .str "c1"), ("name", .str "News 24")])
        (.str "http://host/live.m3u8") [("volume", .num 1)] =
      [.save (pipStateRecord (.obj [("id", .str "c1"), ("name", .str "News 24")])
          (.str "http://host/live.m3u8")
          (spreadSet [("volume", .num 1)] "pendingPiP" (.bool true)) 0),
       .setChannel, .status "pending", .err (some "Click to activate PiP")] ∧
    ((pipStateRecord (.obj [("id", .str "c1"), ("name", .str "News 24")])
          (.str "http://host/live.m3u8")
          (spreadSet [("volume", .num 1)] "pendingPiP" (.bool true)) 0).getField
        "options").getField "pendingPiP" = .bool true :=
  C8_enterPiP_pending ⟨true, false, true, false, true, true, .ok, "", ""⟩ 0
    (.obj [("id", .str "c1"), ("name", .str "News 24")])
    (.str "http://host/live.m3u8") [("volume", .num 1)]
    (by decide) (by decide) (by decide) (by decide)

/-- C9: At the claim's scenario — a fatal network `manifestLoadError`
with a zero-status response after one prior retry — the handler takes the
CORS branch (`"Stream access restricted (CORS policy)"`), not the
server-unreachable path, because the CORS heuristic includes every
network-type `manifestLoadError`; and the server-unreachable action is
unreachable for every event and Player state (dead code). -/
theorem C9_server_unreachable_dead :
    hlsErrorHandler
        { typ := "networkError", details := "manifestLoadError", fatal := true,
          response := none,
          networkDetails := some { status := some 0, statusText := some "" },
          errorMessage := none }
        { streamLoaded := false, videoPresent := true, videoPaused := true,
          loading := false, autoplayAttempted := true, retryCount := 1 } =
      .corsRestricted ∧
    (∀ (d : HlsErrorData) (ctx : PlayerCtx),
      (hlsErrorHandler d ctx == HlsErrorAction.serverUnreachable) = false) := by
  refine ⟨rfl, ?_⟩
  intro d ctx
  rw [beq_eq_false_iff_ne]
  intro h
  unfold hlsErrorHandler at h
  split at h
  · exact HlsErrorAction.noConfusion h
  split at h
  · exact HlsErrorAction.noConfusion h
  rename_i hcors
  split at h
  · exact HlsErrorAction.noConfusion h
  split at h
  · -- fatal branch
    split at h
    · -- networkError branch
      rename_i hnet
      split at h
      · exact HlsErrorAction.noConfusion h
      split at h
      · -- the server-unreachable branch: its guard makes the CORS
        -- heuristic true, contradicting the branch that was not taken
        rename_i hcond
        have hdet : (d.details == "manifestLoadError") = true := by
          simp only [Bool.and_eq_true] at hcond
          exact hcond.1.1
        exact hcors (by simp [isCorsError, hnet, hdet])
      · exact HlsErrorAction.noConfusion h
    split at h
    · exact HlsErrorAction.noConfusion h
    · exact HlsErrorAction.noConfusion h
  · exact HlsErrorAction.noConfusion h

end IPTV
